import Mathlib

/-!
# Verification of the ProspektMaschinen scraper core

Shallow embedding of `src/script.py` (class `ProspektMaschinenScraper`):
the date-range parser `parse_date`, the brochure extractor
`extract_brochure_data`, the shop walker `get_brochures_for_shop`, the catalog
walker `get_hypermarket_links` / `scrape_all_hypermarkets`.

Modelling conventions:
* Python regular-expression searches (`re.search`) of the three fixed patterns
  used by the source are embedded as explicit leftmost-match scanners over
  `List Char`; `\d` is modelled by `Char.isDigit` (ASCII digits — the inputs of
  interest are ASCII).
* `str.strip` (`pyStrip`) and `str.split('-')` (`pySplitHy`) are modelled
  directly on `List Char`, with Python's semantics (ASCII whitespace set).
* `datetime.datetime.now()` is modelled by explicit parameters: `current_year`
  (the string `str(datetime.datetime.now().year)`) and `now_time` (the
  formatted timestamp stored in `parsed_time`).
* BeautifulSoup documents are modelled by the `Node` tree; `find`/`find_all`
  search the descendants of a node in document (preorder) order, and a tag
  matches `class_=c` when `c` is one of its space-separated classes or equals
  the whole `class` attribute, as BeautifulSoup does.
* `urllib.parse.urljoin` is embedded specialised to the only base the source
  ever passes, `BASE_URL = "https://www.prospektmaschine.de"`, following the
  CPython implementation (scheme detection, netloc split, query/fragment
  split, dot-segment resolution); `;`-parameters are kept as part of the path,
  which reassembles to the same string for the URLs at issue.
* Network fetching is an external collaborator: walkers take an explicit
  `fetch : String → Option Node`; `None` models a failed `get_page_content`.
* A catalog link without an `href` makes the source crash (it stores `None`
  and later calls `urljoin(BASE_URL, None)`, a `TypeError`); the walkers
  therefore return `Option (List BrochureRecord)`, with `none` for that crash.
-/

/-- ASCII digit test, modelling `\d` of the source's patterns. -/
def isDig (c : Char) : Bool := c.isDigit

/-- The whitespace set of Python's `str.strip()` (ASCII part). -/
def isPySpace (c : Char) : Bool :=
  c = ' ' || c = '\t' || c = '\n' || c = '\r' || c = '\x0b' || c = '\x0c'

/-- Python `str.strip()`: drop leading and trailing whitespace. -/
def pyStrip (l : List Char) : List Char :=
  ((l.dropWhile isPySpace).reverse.dropWhile isPySpace).reverse

/-- Python `str.split(sep)` for a one-character separator: split on every
occurrence; `"".split(sep) = [""]`. -/
def pySplitOn (sep : Char) : List Char → List (List Char)
  | [] => [[]]
  | c :: rest =>
    if c = sep then [] :: pySplitOn sep rest
    else
      match pySplitOn sep rest with
      | p :: ps => (c :: p) :: ps
      | [] => [[c]]

/-- Python `str.split('-')`, the split used by `parse_date`. -/
def pySplitHy (l : List Char) : List (List Char) := pySplitOn '-' l

/-- Match of the pattern `(\d{2})\.(\d{2})\.(\d{4})` anchored at the head of
the character list (`date_pattern_full` of `parse_date`); returns the three
groups (day, month, year). -/
def matchFullAt : List Char → Option (String × String × String)
  | d1 :: d2 :: p1 :: m1 :: m2 :: p2 :: y1 :: y2 :: y3 :: y4 :: _ =>
    if isDig d1 && isDig d2 && p1 = '.' && isDig m1 && isDig m2 && p2 = '.'
        && isDig y1 && isDig y2 && isDig y3 && isDig y4 then
      some (String.mk [d1, d2], String.mk [m1, m2], String.mk [y1, y2, y3, y4])
    else none
  | _ => none

/-- `re.search` of the full pattern: leftmost match. -/
def searchFullL : List Char → Option (String × String × String)
  | [] => none
  | c :: rest =>
    match matchFullAt (c :: rest) with
    | some g => some g
    | none => searchFullL rest

/-- Match of the pattern `(\d{2})\.(\d{2})\.` anchored at the head
(`date_pattern_short`); returns the two groups (day, month). -/
def matchShortAt : List Char → Option (String × String)
  | d1 :: d2 :: p1 :: m1 :: m2 :: p2 :: _ =>
    if isDig d1 && isDig d2 && p1 = '.' && isDig m1 && isDig m2 && p2 = '.' then
      some (String.mk [d1, d2], String.mk [m1, m2])
    else none
  | _ => none

/-- `re.search` of the short pattern: leftmost match. -/
def searchShortL : List Char → Option (String × String)
  | [] => none
  | c :: rest =>
    match matchShortAt (c :: rest) with
    | some g => some g
    | none => searchShortL rest

/-- Match of the pattern `(\d{4})` anchored at the head (the year scan of the
short-format branch). -/
def matchYearAt : List Char → Option String
  | y1 :: y2 :: y3 :: y4 :: _ =>
    if isDig y1 && isDig y2 && isDig y3 && isDig y4 then
      some (String.mk [y1, y2, y3, y4])
    else none
  | _ => none

/-- `re.search(r'(\d{4})', ...)`: leftmost run of four consecutive digits. -/
def searchYearL : List Char → Option String
  | [] => none
  | c :: rest =>
    match matchYearAt (c :: rest) with
    | some g => some g
    | none => searchYearL rest

/-- `ProspektMaschinenScraper.parse_date`.  `current_year` is the string
`str(datetime.datetime.now().year)` observed at call time.  Returns the pair
`(valid_from, valid_to)`, `none` standing for Python's `None`. -/
def parse_date (date_str : String) (current_year : String) :
    Option String × Option String :=
  match pySplitHy (pyStrip date_str.toList) with
  | [p0, p1] =>
    match searchFullL (pyStrip p0), searchFullL (pyStrip p1) with
    | some (fd, fm, fy), some (td, tm, ty) =>
      (some (fy ++ "-" ++ fm ++ "-" ++ fd), some (ty ++ "-" ++ tm ++ "-" ++ td))
    | _, _ =>
      match searchShortL (pyStrip p0), searchShortL (pyStrip p1) with
      | some (fd, fm), some (td, tm) =>
        (some ((searchYearL date_str.toList).getD current_year ++ "-" ++ fm ++ "-" ++ fd),
         some ((searchYearL date_str.toList).getD current_year ++ "-" ++ tm ++ "-" ++ td))
      | _, _ => (none, none)
  | _ => (none, none)

example : parse_date "01.03.2024 - 15.03.2024" "2026" =
    (some "2024-03-01", some "2024-03-15") := by decide

example : parse_date "01.03.2024 - 15.03." "2026" =
    (some "2024-03-01", some "2024-03-15") := by decide

example : parse_date "01.03. - 15.03. Nr. 99999 Jahr 2024" "2026" =
    (some "9999-03-01", some "9999-03-15") := by decide

example : parse_date "gültig 01.03. - 15.03. im Jahr 2024" "2026" =
    (some "2024-03-01", some "2024-03-15") := by decide

example : parse_date "01.03. - 15.03." "2026" =
    (some "2026-03-01", some "2026-03-15") := by decide

example : parse_date "not a date" "2026" = (none, none) := by decide

example : parse_date "a - b - c" "2026" = (none, none) := by decide


/-! ## Markup model (BeautifulSoup collaborator)

`Node`/`NodeList` form a mutual inductive so that all traversals are
structurally recursive (and hence evaluate inside the kernel).  `nlist`
converts an ordinary list of nodes for readable page literals. -/

mutual
inductive Node where
  | tag (name : String) (attrs : List (String × String)) (children : NodeList)
  | text (s : String)
deriving Repr
inductive NodeList where
  | nil
  | cons (head : Node) (tail : NodeList)
deriving Repr
end

/-- Build a `NodeList` from a `List Node`. -/
def nlist : List Node → NodeList
  | [] => .nil
  | n :: rest => .cons n (nlist rest)

/-- `element.get(key)`: attribute lookup, `None` when absent (text nodes have
no attributes). -/
def Node.get : Node → String → Option String
  | .text _, _ => none
  | .tag _ attrs _, key => (attrs.find? (fun p => p.1 == key)).map (·.2)

/-- Python truthiness of an optional string: `None` and `""` are falsy. -/
def truthyS : Option String → Bool
  | none => false
  | some s => !(s == "")

/-- Python `a or b` on optional strings: `b` when `a` is falsy. -/
def pyOr (a b : Option String) : Option String :=
  if truthyS a then a else b

/-- The whitespace-separated tokens of a `class` attribute value. -/
def classTokens (ca : String) : List String :=
  (pySplitOn ' ' ca.toList).map String.mk

/-- Does a node match a BeautifulSoup query `find(tagName, class_=cls)`?
A `cls` filter matches when it is one of the space-separated classes of the
`class` attribute or equals that whole attribute value (BeautifulSoup
supports both). -/
def Node.matchesQ : Node → String → Option String → Bool
  | .text _, _, _ => false
  | .tag n attrs _, t, cls =>
    n == t &&
      match cls with
      | none => true
      | some c =>
        match (attrs.find? (fun p => p.1 == "class")).map (·.2) with
        | none => false
        | some ca => (classTokens ca).contains c || c == ca

mutual
/-- `find_all` over the children of each node of a list: all matching
descendants in document (preorder) order. -/
def NodeList.findAllQ : NodeList → String → Option String → List Node
  | .nil, _, _ => []
  | .cons n rest, t, c =>
    (if n.matchesQ t c then [n] else []) ++ n.findAll t c ++ rest.findAllQ t c
/-- `element.find_all(t, class_=c)`: all matching descendants. -/
def Node.findAll : Node → String → Option String → List Node
  | .text _, _, _ => []
  | .tag _ _ ch, t, c => ch.findAllQ t c
end

mutual
/-- `find` over a node list: first matching descendant in document order. -/
def NodeList.findQ : NodeList → String → Option String → Option Node
  | .nil, _, _ => none
  | .cons n rest, t, c =>
    if n.matchesQ t c then some n
    else
      match n.find t c with
      | some m => some m
      | none => rest.findQ t c
/-- `element.find(t, class_=c)`: first matching descendant, `None` if none. -/
def Node.find : Node → String → Option String → Option Node
  | .text _, _, _ => none
  | .tag _ _ ch, t, c => ch.findQ t c
end

mutual
/-- Concatenated text of a node list, in document order. -/
def NodeList.textOf : NodeList → String
  | .nil => ""
  | .cons n rest => n.getText ++ rest.textOf
/-- `element.text`: concatenation of all descendant strings. -/
def Node.getText : Node → String
  | .text s => s
  | .tag _ _ ch => ch.textOf
end

/-- Python `.strip()` on a string value. -/
def pyStripS (s : String) : String := String.mk (pyStrip s.toList)

example :
    Node.find (.tag "div" [] (nlist [.text "x",
      .tag "p" [("class", "a b")] (nlist [.tag "strong" [] (nlist [.text "T"])])]))
      "strong" none = some (.tag "strong" [] (nlist [.text "T"])) := by rfl

example :
    Node.find (.tag "div" [] (nlist [.tag "p" [("class", "a b")] .nil])) "p" (some "b")
      = some (.tag "p" [("class", "a b")] .nil) := by rfl

example :
    Node.find (.tag "div" [] (nlist [.tag "p" [("class", "a b")] .nil])) "p" (some "a b")
      = some (.tag "p" [("class", "a b")] .nil) := by rfl

example :
    Node.find (.tag "div" [] (nlist [.tag "p" [] .nil])) "p" (some "a") = none := by rfl

example :
    (Node.tag "div" [] (nlist [.tag "strong" [] (nlist
      [.text "He", .tag "em" [] (nlist [.text "y"]), .text "!"])])).getText = "Hey!" := by rfl

/-! ## `urllib.parse.urljoin`, specialised to the scraper's base URL

The source joins every URL against `BASE_URL = "https://www.prospektmaschine.de"`
(scheme `https`, network location `www.prospektmaschine.de`, empty path, query
and fragment).  The model below follows CPython's `urljoin`/`urlsplit`/
`urlunsplit` for that fixed base: tab/CR/LF removal, scheme detection (any
explicit scheme other than `https` returns the URL unchanged, `https` being
`bscheme` and a member of `uses_relative`), netloc/fragment/query splitting,
and RFC 3986 dot-segment resolution. `;`-parameters are kept as part of the
path, which reassembles to the same string. -/

/-- `ProspektMaschinenScraper.BASE_URL`. -/
def BASE_URL : String := "https://www.prospektmaschine.de"

/-- `ProspektMaschinenScraper.HYPERMARKETS_PATH`. -/
def HYPERMARKETS_PATH : String := "/hypermarkte/"

/-- The network location of `BASE_URL`. -/
def BNETLOC : List Char := "www.prospektmaschine.de".toList

/-- Characters CPython removes from URLs before parsing
(`_UNSAFE_URL_BYTES_TO_REMOVE`). -/
def removeUnsafeC (l : List Char) : List Char :=
  l.filter (fun c => !(c = '\t' || c = '\r' || c = '\n'))

/-- Characters valid in a URL scheme (`scheme_chars` of `urllib.parse`). -/
def isSchemeChar (c : Char) : Bool :=
  c.isAlpha || c.isDigit || c = '+' || c = '-' || c = '.'

/-- ASCII lower-casing, as applied to a detected scheme. -/
def asciiLower (c : Char) : Char :=
  if 'A' ≤ c && c ≤ 'Z' then Char.ofNat (c.toNat + 32) else c

/-- Scheme detection of `urlsplit`: a leading letter followed by scheme
characters up to the first `:`.  Returns the lower-cased scheme and the
remainder after the colon. -/
def splitSchemeC (l : List Char) : Option (List Char × List Char) :=
  let pre := l.takeWhile (fun c => c != ':')
  if pre.length < l.length &&
      (match pre with | c :: _ => c.isAlpha | [] => false) &&
      pre.all isSchemeChar then
    some (pre.map asciiLower, l.drop (pre.length + 1))
  else none

/-- Split at the first occurrence of `sep`: `(before, after)`; when `sep` is
absent the second component is empty (like an empty fragment/query, which
`urlunsplit` drops). -/
def splitFirstC (sep : Char) : List Char → List Char × List Char
  | [] => ([], [])
  | c :: rest =>
    if c = sep then ([], rest)
    else
      let p := splitFirstC sep rest
      (c :: p.1, p.2)

/-- `_splitnetloc`: the network location runs until the first `/`, `?` or
`#`. -/
def splitNetlocC (l : List Char) : List Char × List Char :=
  (l.takeWhile (fun c => !(c = '/' || c = '?' || c = '#')),
   l.dropWhile (fun c => !(c = '/' || c = '?' || c = '#')))

/-- `segments[1:-1] = filter(None, segments[1:-1])` of `urljoin`: drop empty
segments except the first and the last. -/
def filterMiddle (l : List (List Char)) : List (List Char) :=
  match l with
  | [] => []
  | [a] => [a]
  | a :: rest =>
    match rest.reverse with
    | [] => [a]
    | last :: midrev => a :: (midrev.reverse.filter (fun s => !s.isEmpty)) ++ [last]

/-- The dot-segment resolution loop of `urljoin`: `..` pops the accumulator
(ignoring underflow), `.` is skipped. -/
def resolveDots : List (List Char) → List (List Char) → List (List Char)
  | [], acc => acc
  | s :: rest, acc =>
    if s = ['.', '.'] then resolveDots rest acc.dropLast
    else if s = ['.'] then resolveDots rest acc
    else resolveDots rest (acc ++ [s])

/-- Join path segments with `/`. -/
def joinSlash : List (List Char) → List Char
  | [] => []
  | [a] => a
  | a :: rest => a ++ '/' :: joinSlash rest

/-- `urlunsplit` for scheme `https` and a non-empty netloc: a non-empty
relative path gains a leading `/`; empty query/fragment are dropped. -/
def unparseHttps (netloc path query frag : List Char) : String :=
  let p := match path with
    | [] => []
    | c :: _ => if c = '/' then path else '/' :: path
  String.mk ("https://".toList ++ netloc ++ p
    ++ (if query.isEmpty then [] else '?' :: query)
    ++ (if frag.isEmpty then [] else '#' :: frag))

/-- Resolution of a URL remainder (scheme already stripped or defaulted to
`https`) against the base: netloc/fragment/query split, then the path logic of
`urljoin` with the base's empty path. -/
def urljoinResolve (rest : List Char) : String :=
  let nsplit :=
    if ['/', '/'].isPrefixOf rest then splitNetlocC (rest.drop 2) else ([], rest)
  let netloc := nsplit.1
  let fsplit := splitFirstC '#' nsplit.2
  let frag := fsplit.2
  let qsplit := splitFirstC '?' fsplit.1
  let path := qsplit.1
  let query := qsplit.2
  if !netloc.isEmpty then unparseHttps netloc path query frag
  else if path.isEmpty then unparseHttps BNETLOC [] query frag
  else
    let segments :=
      match path with
      | '/' :: _ => pySplitOn '/' path
      | _ => filterMiddle ([] :: pySplitOn '/' path)
    let res := resolveDots segments []
    let res := if segments.getLast?.getD [] = ['.'] ∨
        segments.getLast?.getD [] = ['.', '.'] then res ++ [[]] else res
    let p := joinSlash res
    unparseHttps BNETLOC (if p.isEmpty then ['/'] else p) query frag

/-- `urllib.parse.urljoin(BASE_URL, url)`. -/
def urljoinB (url : String) : String :=
  if url = "" then BASE_URL
  else
    let cleaned := removeUnsafeC url.toList
    match splitSchemeC cleaned with
    | some (sch, rest) =>
      if sch = "https".toList then urljoinResolve rest else url
    | none => urljoinResolve cleaned

example : urljoinB "/hypermarkte/" = "https://www.prospektmaschine.de/hypermarkte/" := by decide

example : urljoinB "/img/x.jpg" = "https://www.prospektmaschine.de/img/x.jpg" := by decide

example : urljoinB "img/x.jpg" = "https://www.prospektmaschine.de/img/x.jpg" := by decide

example : urljoinB "" = "https://www.prospektmaschine.de" := by decide

example : urljoinB "//cdn.example.com/a.png" = "https://cdn.example.com/a.png" := by decide

example : urljoinB "https://cdn.example.com/a.png" = "https://cdn.example.com/a.png" := by decide

example : urljoinB "http://x.de/a" = "http://x.de/a" := by decide

example : urljoinB "ftp://x.de/a" = "ftp://x.de/a" := by decide

example : urljoinB "data:image/png;base64,AAA" = "data:image/png;base64,AAA" := by decide

example : urljoinB "?q=1" = "https://www.prospektmaschine.de?q=1" := by decide

example : urljoinB "#frag" = "https://www.prospektmaschine.de#frag" := by decide

example : urljoinB "/a/../b" = "https://www.prospektmaschine.de/b" := by decide

example : urljoinB "a/../b" = "https://www.prospektmaschine.de/b" := by decide

example : urljoinB ".." = "https://www.prospektmaschine.de/" := by decide

example : urljoinB "a/./b/" = "https://www.prospektmaschine.de/a/b/" := by decide

example : urljoinB "https:img.jpg" = "https://www.prospektmaschine.de/img.jpg" := by decide

example : urljoinB "///x" = "https://www.prospektmaschine.de/x" := by decide

example : urljoinB "/a/b/../../c" = "https://www.prospektmaschine.de/c" := by decide

example : urljoinB "mailto:x@y.z" = "mailto:x@y.z" := by decide

example : urljoinB "HTTPS://Y.de/p" = "https://Y.de/p" := by decide

example : urljoinB "/p?q=2#f3" = "https://www.prospektmaschine.de/p?q=2#f3" := by decide

example : urljoinB "a b/c" = "https://www.prospektmaschine.de/a b/c" := by decide

/-! ## Brochure record extractor (`extract_brochure_data`) -/

/-- The dictionary built by `extract_brochure_data`, field for field. -/
structure BrochureRecord where
  title : String
  thumbnail : String
  shop_name : String
  valid_from : String
  valid_to : String
  parsed_time : String
deriving Repr, DecidableEq

/-- The thumbnail-URL lookup of `extract_brochure_data`: prefer the
`data-src` of an `img.lazyloadBrochure` when truthy; otherwise fall back to
the first `img` and its `src` or `data-src`; `none` when the fallback image is
missing or its URL is falsy (both rejection paths of the source). -/
def findThumbFallback (brochure : Node) : Option String :=
  match brochure.find "img" none with
  | none => none
  | some img =>
    let t := pyOr (img.get "src") (img.get "data-src")
    if truthyS t then t else none

/-- The complete thumbnail lookup (lazy-load branch plus fallback). -/
def findThumb (brochure : Node) : Option String :=
  match brochure.find "img" (some "lazyloadBrochure") with
  | some img =>
    if truthyS (img.get "data-src") then img.get "data-src"
    else findThumbFallback brochure
  | none => findThumbFallback brochure

/-- Python `s.startswith(pre)` (kernel-reducible). -/
def pyStartsWith (s pre : String) : Bool :=
  pre.toList.isPrefixOf s.toList

/-- The validity-date element lookup: `small.visible-sm`, then
`small.hidden-sm`. -/
def dateElem (brochure : Node) : Option Node :=
  match brochure.find "small" (some "visible-sm") with
  | some de => some de
  | none => brochure.find "small" (some "hidden-sm")

/-- The thumbnail normalisation of `extract_brochure_data`: a URL already
starting with `http://` or `https://` is kept, any other is joined to
`BASE_URL`. -/
def resolveThumbnail (u : String) : String :=
  if pyStartsWith u "http://" || pyStartsWith u "https://" then u else urljoinB u

/-- `ProspektMaschinenScraper.extract_brochure_data`.  `current_year` and
`now_time` stand for the wall clock observed during the call (see the header).
Returns `none` for every rejection path of the source. -/
def extract_brochure_data (brochure : Node) (shop_name : String)
    (current_year : String) (now_time : String) : Option BrochureRecord :=
  if (brochure.find "div" (some "grid-item-old")).isSome then none
  else
    match brochure.find "strong" none with
    | none => none
    | some title_element =>
      match findThumb brochure with
      | none => none
      | some thumb0 =>
        match dateElem brochure with
        | none => none
        | some date_element =>
          match parse_date (pyStripS date_element.getText) current_year with
          | (some valid_from, some valid_to) =>
            some { title := pyStripS title_element.getText,
                   thumbnail := resolveThumbnail thumb0, shop_name := shop_name,
                   valid_from := valid_from, valid_to := valid_to,
                   parsed_time := now_time }
          | _ => none

/-- A well-formed brochure fragment used in several concrete evaluations. -/
def sampleFragment : Node :=
  .tag "div" [("class", "brochure-thumb")] (nlist
    [.tag "strong" [] (nlist [.text " Angebote der Woche "]),
     .tag "img" [("class", "lazyloadBrochure"), ("data-src", "/img/b1.jpg")] .nil,
     .tag "small" [("class", "visible-sm")] (nlist [.text "01.03.2024 - 15.03.2024"])])

example : extract_brochure_data sampleFragment "Lidl" "2026" "2026-10-12 10:00:00" =
    some { title := "Angebote der Woche",
           thumbnail := "https://www.prospektmaschine.de/img/b1.jpg",
           shop_name := "Lidl", valid_from := "2024-03-01", valid_to := "2024-03-15",
           parsed_time := "2026-10-12 10:00:00" } := by decide

example : extract_brochure_data
    (.tag "div" [] (nlist [.tag "div" [("class", "grid-item-old")] .nil,
      .tag "strong" [] (nlist [.text "T"])])) "Lidl" "2026" "t" = none := by decide

/-! ## Shop and catalog walkers -/

/-- One catalog row (`{"url": link.get("href"), "name": link.text.strip()}`).
`url` is optional because `link.get("href")` can be `None`. -/
structure ShopEntry where
  url : Option String
  name : String
deriving Repr, DecidableEq

/-- `ProspektMaschinenScraper.get_hypermarket_links`, with the fetch
collaborator explicit.  A failed fetch or a missing category container yields
the empty list. -/
def get_hypermarket_links (fetch : String → Option Node) : List ShopEntry :=
  match fetch (urljoinB HYPERMARKETS_PATH) with
  | none => []
  | some soup =>
    match soup.find "ul" (some "list-unstyled categories") with
    | none => []
    | some categories =>
      (categories.findAll "a" none).map
        (fun l => { url := l.get "href", name := pyStripS l.getText })

/-- `ProspektMaschinenScraper.get_brochures_for_shop`.  A `shop_url` of `None`
models the `TypeError` the source would raise in `urljoin` (result `none`); a
failed page fetch yields `some []` (the source logs and returns the empty
list). -/
def get_brochures_for_shop (fetch : String → Option Node) (shop_url : Option String)
    (shop_name : String) (current_year : String) (now_time : String) :
    Option (List BrochureRecord) :=
  match shop_url with
  | none => none
  | some su =>
    match fetch (urljoinB su) with
    | none => some []
    | some soup =>
      some ((soup.findAll "div" (some "brochure-thumb")).filterMap
        (fun b => extract_brochure_data b shop_name current_year now_time))

/-- The accumulator loop of `scrape_all_hypermarkets`
(`all_brochures.extend(brochures)` per shop, a crash propagating). -/
def scrapeGo (fetch : String → Option Node) (current_year now_time : String) :
    List ShopEntry → List BrochureRecord → Option (List BrochureRecord)
  | [], acc => some acc
  | e :: rest, acc =>
    match get_brochures_for_shop fetch e.url e.name current_year now_time with
    | none => none
    | some bs => scrapeGo fetch current_year now_time rest (acc ++ bs)

/-- `ProspektMaschinenScraper.scrape_all_hypermarkets`: enumerate the catalog,
then walk every shop in order, extending one growing aggregate. -/
def scrape_all_hypermarkets (fetch : String → Option Node)
    (current_year now_time : String) : Option (List BrochureRecord) :=
  scrapeGo fetch current_year now_time (get_hypermarket_links fetch) []

/-! ## Spec-side predicates

These definitions follow the specification's words (not the source); they are
used to state refinement/refutation results against the source-derived
definitions above. -/

/-- Helper for `digitRuns`: the second argument is the current digit run,
reversed. -/
def digitRunsAux : List Char → List Char → List String
  | [], run => if run.isEmpty then [] else [String.mk run.reverse]
  | c :: rest, run =>
    if isDig c then digitRunsAux rest (c :: run)
    else if run.isEmpty then digitRunsAux rest []
    else String.mk run.reverse :: digitRunsAux rest []

/-- The maximal runs of consecutive digits of a text, left to right. -/
def digitRuns (l : List Char) : List String := digitRunsAux l []

/-- Modelled from the spec: "scan the entire original text for a standalone
four-digit number; use the first such match" — the first maximal digit run of
length exactly four. -/
def specStandaloneYear (s : String) : Option String :=
  (digitRuns s.toList).find? (fun r => r.toList.length == 4)

/-- Modelled from the spec: a well-formed calendar date `YYYY-MM-DD` —
month in 1..12 and day valid for that month and year (Gregorian leap rule). -/
def specWellFormedDate (s : String) : Bool :=
  match s.toList with
  | [y1, y2, y3, y4, h1, m1, m2, h2, d1, d2] =>
    isDig y1 && isDig y2 && isDig y3 && isDig y4 && h1 = '-' &&
    isDig m1 && isDig m2 && h2 = '-' && isDig d1 && isDig d2 &&
    (let y := (((y1.toNat - 48) * 10 + (y2.toNat - 48)) * 10 + (y3.toNat - 48)) * 10
                + (y4.toNat - 48)
     let m := (m1.toNat - 48) * 10 + (m2.toNat - 48)
     let d := (d1.toNat - 48) * 10 + (d2.toNat - 48)
     let leap := (y % 4 == 0 && y % 100 != 0) || y % 400 == 0
     let dim : Nat :=
       if m == 2 then (if leap then 29 else 28)
       else if m == 4 || m == 6 || m == 9 || m == 11 then 30
       else 31
     1 ≤ m && m ≤ 12 && 1 ≤ d && d ≤ dim)
  | _ => false

example : specWellFormedDate "2024-03-01" = true := by decide

example : specWellFormedDate "2024-02-29" = true := by decide

example : specWellFormedDate "2023-02-29" = false := by decide

example : specWellFormedDate "2024-99-99" = false := by decide

example : specStandaloneYear "a 99999 b 2024" = some "2024" := by decide

example : specStandaloneYear "01.03. - 15.03." = none := by decide

/-- The purely syntactic shape `DDDD-DD-DD` (digits and hyphens, no calendar
validation) that the source's output strings actually satisfy. -/
def dateShapeDigits (s : String) : Bool :=
  match s.toList with
  | [y1, y2, y3, y4, h1, m1, m2, h2, d1, d2] =>
    isDig y1 && isDig y2 && isDig y3 && isDig y4 && h1 = '-' &&
    isDig m1 && isDig m2 && h2 = '-' && isDig d1 && isDig d2
  | _ => false

/-- A string of exactly four digits (the shape of a matched year group and of
`str(datetime.datetime.now().year)` for present-day years). -/
def fourDigitString (s : String) : Bool :=
  match s.toList with
  | [y1, y2, y3, y4] => isDig y1 && isDig y2 && isDig y3 && isDig y4
  | _ => false

/-! ## Concrete fragments and a demonstration catalog used by the claim theorems -/

/-- A string of exactly two digits (the shape of a day or month group). -/
def twoDigitString (s : String) : Bool :=
  match s.toList with
  | [a, b] => isDig a && isDig b
  | _ => false

/-- A fragment whose validity text carries out-of-range day and month
numbers; the source accepts it unchanged. -/
def badDateFragment : Node :=
  .tag "div" [("class", "brochure-thumb")] (nlist
    [.tag "strong" [] (nlist [.text "Katalog"]),
     .tag "img" [("class", "lazyloadBrochure"), ("data-src", "https://x.de/i.jpg")] .nil,
     .tag "small" [("class", "visible-sm")] (nlist [.text "99.99.2024 - 88.88.2024"])])

/-- A fragment whose `strong` element holds only whitespace; the source
still accepts it, with an empty title. -/
def blankTitleFragment : Node :=
  .tag "div" [("class", "brochure-thumb")] (nlist
    [.tag "strong" [] (nlist [.text "   "]),
     .tag "img" [("class", "lazyloadBrochure"), ("data-src", "https://x.de/i.jpg")] .nil,
     .tag "small" [("class", "visible-sm")] (nlist [.text "01.03.2024 - 15.03.2024"])])

/-- The per-shop record sequence as the specification describes it: the
fragments of the shop's fetched page in document order, each passed through
the extractor, with a failed fetch contributing nothing (`[]` also for the
crash case of a missing `href`, which the walk theorems exclude by
hypothesis). -/
def specShopRecords (fetch : String → Option Node) (e : ShopEntry)
    (cy t : String) : List BrochureRecord :=
  match e.url with
  | none => []
  | some u =>
    match fetch (urljoinB u) with
    | none => []
    | some page =>
      (page.findAll "div" (some "brochure-thumb")).filterMap
        (fun b => extract_brochure_data b e.name cy t)

/-! ## A concrete demonstration catalog for the walker claims -/

/-- A minimal well-formed brochure fragment with the given title. -/
def mkFrag (title : String) : Node :=
  .tag "div" [("class", "brochure-thumb")] (nlist
    [.tag "strong" [] (nlist [.text title]),
     .tag "img" [("class", "lazyloadBrochure"), ("data-src", "https://x.de/i.jpg")] .nil,
     .tag "small" [("class", "visible-sm")] (nlist [.text "01.03.2024 - 15.03.2024"])])

/-- The record `mkFrag title` extracts to for shop `shop` at time `"t"`. -/
def mkRec (title shop : String) : BrochureRecord :=
  { title := title, thumbnail := "https://x.de/i.jpg", shop_name := shop,
    valid_from := "2024-03-01", valid_to := "2024-03-15", parsed_time := "t" }

/-- A catalog page enumerating three shops. -/
def catalogPage : Node :=
  .tag "html" [] (nlist
    [.tag "ul" [("class", "list-unstyled categories")] (nlist
      [.tag "li" [] (nlist [.tag "a" [("href", "/shop-a/")] (nlist [.text "Shop A"])]),
       .tag "li" [] (nlist [.tag "a" [("href", "/shop-b/")] (nlist [.text "Shop B"])]),
       .tag "li" [] (nlist [.tag "a" [("href", "/shop-c/")] (nlist [.text "Shop C"])])])])

/-- Shop A's page: two brochures. -/
def pageA : Node := .tag "html" [] (nlist [mkFrag "A1", mkFrag "A2"])

/-- Shop B's page: one brochure. -/
def pageB : Node := .tag "html" [] (nlist [mkFrag "B1"])

/-- Shop C's page: three brochures. -/
def pageC : Node := .tag "html" [] (nlist [mkFrag "C1", mkFrag "C2", mkFrag "C3"])

/-- A fetch collaborator serving the demonstration catalog. -/
def demoFetch : String → Option Node := fun url =>
  if url = "https://www.prospektmaschine.de/hypermarkte/" then some catalogPage
  else if url = "https://www.prospektmaschine.de/shop-a/" then some pageA
  else if url = "https://www.prospektmaschine.de/shop-b/" then some pageB
  else if url = "https://www.prospektmaschine.de/shop-c/" then some pageC
  else none

/-- The same catalog with shop B's page fetch failing. -/
def demoFetchBFails : String → Option Node := fun url =>
  if url = "https://www.prospektmaschine.de/shop-b/" then none else demoFetch url

example :
    scrape_all_hypermarkets demoFetch "2026" "t" =
      some [mkRec "A1" "Shop A", mkRec "A2" "Shop A", mkRec "B1" "Shop B",
            mkRec "C1" "Shop C", mkRec "C2" "Shop C", mkRec "C3" "Shop C"] := by
  decide

example :
    scrape_all_hypermarkets demoFetchBFails "2026" "t" =
      some [mkRec "A1" "Shop A", mkRec "A2" "Shop A",
            mkRec "C1" "Shop C", mkRec "C2" "Shop C", mkRec "C3" "Shop C"] := by
  decide

/-! ## Claims about the date-range parser -/

/-- C1: for every input whose `-`-split yields exactly two segments, both
containing a full-date match (`DD.MM.YYYY`), `parse_date` returns the two
dates formatted `YYYY-MM-DD`, each built from its own segment's day, month and
year (the leftmost match of each segment, as `re.search` finds it). -/
theorem C1_full_form_both_segments (s cy : String) (a b : List Char)
    (fd fm fy td tm ty : String)
    (hsplit : pySplitHy (pyStrip s.toList) = [a, b])
    (ha : searchFullL (pyStrip a) = some (fd, fm, fy))
    (hb : searchFullL (pyStrip b) = some (td, tm, ty)) :
    parse_date s cy =
      (some (fy ++ "-" ++ fm ++ "-" ++ fd), some (ty ++ "-" ++ tm ++ "-" ++ td)) := by
  unfold parse_date
  rw [hsplit]
  simp [ha, hb]

/-- Witness for C1 at the spec's own example input. -/
theorem C1_full_form_both_segments_witness :
    parse_date "01.03.2024 - 15.03.2024" "2026" =
      (some ("2024" ++ "-" ++ "03" ++ "-" ++ "01"), some ("2024" ++ "-" ++ "03" ++ "-" ++ "15")) :=
  C1_full_form_both_segments "01.03.2024 - 15.03.2024" "2026"
    "01.03.2024 ".toList " 15.03.2024".toList "01" "03" "2024" "15" "03" "2024"
    (by decide) (by decide) (by decide)

/-- C2 is false on the code: with one full-form segment and one short-form
segment, the short pattern also matches inside the full-form date, so the
parse succeeds through the short-format branch instead of returning
`(None, None)`. -/
theorem C2_counterexample :
    parse_date "01.03.2024 - 15.03." "2026" = (some "2024-03-01", some "2024-03-15") ∧
    parse_date "01.03.2024 - 15.03." "2026" ≠ (none, none) := by
  constructor
  · decide
  · decide

/-- C2 amended: whenever the full pattern fails on at least one of the two
segments but the short pattern matches both (which covers the mixed case,
since the short pattern matches inside any full-form date), `parse_date`
succeeds and both dates use one shared year — the first four-consecutive-digit
substring of the whole original text, else the current year. -/
theorem C2_amended_mixed_short_path (s cy : String) (a b : List Char)
    (fd fm td tm : String)
    (hsplit : pySplitHy (pyStrip s.toList) = [a, b])
    (hfull : searchFullL (pyStrip a) = none ∨ searchFullL (pyStrip b) = none)
    (ha : searchShortL (pyStrip a) = some (fd, fm))
    (hb : searchShortL (pyStrip b) = some (td, tm)) :
    parse_date s cy =
      (some ((searchYearL s.toList).getD cy ++ "-" ++ fm ++ "-" ++ fd),
       some ((searchYearL s.toList).getD cy ++ "-" ++ tm ++ "-" ++ td)) := by
  unfold parse_date
  rw [hsplit]
  rcases hfull with h | h <;>
    cases hfa : searchFullL (pyStrip a) <;> cases hfb : searchFullL (pyStrip b) <;>
      simp_all [ha, hb]

/-- Witness for the amended C2 at the mixed input of the counterexample. -/
theorem C2_amended_mixed_short_path_witness :
    parse_date "01.03.2024 - 15.03." "2026" =
      (some ((searchYearL "01.03.2024 - 15.03.".toList).getD "2026" ++ "-" ++ "03" ++ "-" ++ "01"),
       some ((searchYearL "01.03.2024 - 15.03.".toList).getD "2026" ++ "-" ++ "03" ++ "-" ++ "15")) :=
  C2_amended_mixed_short_path "01.03.2024 - 15.03." "2026"
    "01.03.2024 ".toList " 15.03.".toList "01" "03" "15" "03"
    (by decide) (Or.inr (by decide)) (by decide) (by decide)

/-- C3 is false on the code: the year scan is `re.search(r'(\d{4})')`, which
also matches the first four digits of a longer digit run; it is not a
standalone four-digit number.  Here both segments match only the short
pattern, the only standalone four-digit number of the text is `2024`, yet the
code takes the year `9999` out of `99999`. -/
theorem C3_counterexample :
    parse_date "01.03. - 15.03. Nr. 99999 Jahr 2024" "2026" =
      (some "9999-03-01", some "9999-03-15") ∧
    specStandaloneYear "01.03. - 15.03. Nr. 99999 Jahr 2024" = some "2024" ∧
    parse_date "01.03. - 15.03. Nr. 99999 Jahr 2024" "2026" ≠
      (some "2024-03-01", some "2024-03-15") := by
  refine ⟨by decide, by decide, by decide⟩

/-- C3 amended: when both segments match only the short pattern, the shared
year is the first run of four consecutive digits anywhere in the original
text (even inside a longer digit run), and only if the text contains no four
consecutive digits does the current calendar year apply. -/
theorem C3_amended_shared_year (s cy : String) (a b : List Char)
    (fd fm td tm : String)
    (hsplit : pySplitHy (pyStrip s.toList) = [a, b])
    (hfa : searchFullL (pyStrip a) = none)
    (hfb : searchFullL (pyStrip b) = none)
    (ha : searchShortL (pyStrip a) = some (fd, fm))
    (hb : searchShortL (pyStrip b) = some (td, tm)) :
    parse_date s cy =
      (some ((searchYearL s.toList).getD cy ++ "-" ++ fm ++ "-" ++ fd),
       some ((searchYearL s.toList).getD cy ++ "-" ++ tm ++ "-" ++ td)) := by
  unfold parse_date
  rw [hsplit]
  simp [hfa, hfb, ha, hb]

/-- Witness for the amended C3: no four-digit run in the text, so the current
calendar year is used for both dates. -/
theorem C3_amended_shared_year_witness :
    parse_date "01.03. - 15.03." "2026" =
      (some ((searchYearL "01.03. - 15.03.".toList).getD "2026" ++ "-" ++ "03" ++ "-" ++ "01"),
       some ((searchYearL "01.03. - 15.03.".toList).getD "2026" ++ "-" ++ "03" ++ "-" ++ "15")) :=
  C3_amended_shared_year "01.03. - 15.03." "2026" "01.03. ".toList " 15.03.".toList
    "01" "03" "15" "03" (by decide) (by decide) (by decide) (by decide) (by decide)

/-- C4: `parse_date` always returns a pair (it is a total function of the
embedding, matching the source's catch-all `except`), and it returns
`(None, None)` whenever the `-`-split does not yield exactly two parts or
neither pattern matches both segments. -/
theorem C4_failure_paths (s cy : String) :
    ((pySplitHy (pyStrip s.toList)).length ≠ 2 → parse_date s cy = (none, none)) ∧
    (∀ a b, pySplitHy (pyStrip s.toList) = [a, b] →
      (searchFullL (pyStrip a) = none ∨ searchFullL (pyStrip b) = none) →
      (searchShortL (pyStrip a) = none ∨ searchShortL (pyStrip b) = none) →
      parse_date s cy = (none, none)) := by
  constructor
  · intro hlen
    unfold parse_date
    split
    · rename_i p0 p1 heq
      exact absurd (by rw [heq]; rfl) hlen
    · rfl
  · intro a b hsplit hfull hshort
    unfold parse_date
    rw [hsplit]
    rcases hfull with h1 | h1 <;> rcases hshort with h2 | h2 <;>
      cases hfa : searchFullL (pyStrip a) <;> cases hfb : searchFullL (pyStrip b) <;>
        cases hsa : searchShortL (pyStrip a) <;> cases hsb : searchShortL (pyStrip b) <;>
          simp_all

/-- Witness for C4: a hyphen-free text, a three-part split, and a two-part
split where no pattern matches. -/
theorem C4_failure_paths_witness :
    parse_date "not a date" "2026" = (none, none) ∧
    parse_date "x - y - z" "2026" = (none, none) ∧
    parse_date "ab - cd" "2026" = (none, none) :=
  ⟨(C4_failure_paths "not a date" "2026").1 (by decide),
   (C4_failure_paths "x - y - z" "2026").1 (by decide),
   (C4_failure_paths "ab - cd" "2026").2 "ab ".toList " cd".toList
     (by decide) (Or.inl (by decide)) (Or.inl (by decide))⟩

/-- C10: on inputs where both `-`-separated segments contain a full-date
match, the result of `parse_date` does not depend on the wall clock: two
calls with different current years agree. -/
theorem C10_wall_clock_independent (s : String) (a b : List Char) (cy1 cy2 : String)
    (hsplit : pySplitHy (pyStrip s.toList) = [a, b])
    (ha : (searchFullL (pyStrip a)).isSome = true)
    (hb : (searchFullL (pyStrip b)).isSome = true) :
    parse_date s cy1 = parse_date s cy2 := by
  obtain ⟨⟨fd, fm, fy⟩, hga⟩ := Option.isSome_iff_exists.mp ha
  obtain ⟨⟨td, tm, ty⟩, hgb⟩ := Option.isSome_iff_exists.mp hb
  rw [C1_full_form_both_segments s cy1 a b fd fm fy td tm ty hsplit hga hgb,
      C1_full_form_both_segments s cy2 a b fd fm fy td tm ty hsplit hga hgb]

/-- Witness for C10 at the spec's full-form example, years 2025 vs 2026. -/
theorem C10_wall_clock_independent_witness :
    parse_date "01.03.2024 - 15.03.2024" "2025" =
      parse_date "01.03.2024 - 15.03.2024" "2026" :=
  C10_wall_clock_independent "01.03.2024 - 15.03.2024"
    "01.03.2024 ".toList " 15.03.2024".toList "2025" "2026"
    (by decide) (by decide) (by decide)

/-! ## Shape of the strings produced by the parser -/

/-- Inversion of `twoDigitString`. -/
theorem twoDigitString_exists {s : String} (h : twoDigitString s = true) :
    ∃ a b, s = String.mk [a, b] ∧ isDig a = true ∧ isDig b = true := by
  obtain ⟨l⟩ := s
  rcases l with _ | ⟨a, _ | ⟨b, _ | ⟨c, rest⟩⟩⟩ <;> simp [twoDigitString, String.toList] at h
  exact ⟨a, b, rfl, h.1, h.2⟩

/-- Inversion of `fourDigitString`. -/
theorem fourDigitString_exists {s : String} (h : fourDigitString s = true) :
    ∃ a b c d, s = String.mk [a, b, c, d] ∧
      isDig a = true ∧ isDig b = true ∧ isDig c = true ∧ isDig d = true := by
  obtain ⟨l⟩ := s
  rcases l with _ | ⟨a, _ | ⟨b, _ | ⟨c, _ | ⟨d, _ | ⟨e, rest⟩⟩⟩⟩⟩ <;>
    simp [fourDigitString, String.toList] at h
  exact ⟨a, b, c, d, rfl, by tauto, by tauto, by tauto, by tauto⟩

/-- `dateShapeDigits` on an explicit ten-character string. -/
theorem dateShape_mk (a b c e f g i j : Char) :
    dateShapeDigits (String.mk [a, b, c, e, '-', f, g, '-', i, j]) =
      (isDig a && isDig b && isDig c && isDig e && isDig f && isDig g
        && isDig i && isDig j) := by
  simp [dateShapeDigits, String.toList, Bool.and_assoc]

/-- Assembling `YYYY-MM-DD` from digit groups yields the digit shape. -/
theorem dateShape_of_groups {y m d : String} (hy : fourDigitString y = true)
    (hm : twoDigitString m = true) (hd : twoDigitString d = true) :
    dateShapeDigits (y ++ "-" ++ m ++ "-" ++ d) = true := by
  obtain ⟨a, b, c, e, rfl, h1, h2, h3, h4⟩ := fourDigitString_exists hy
  obtain ⟨f, g, rfl, h5, h6⟩ := twoDigitString_exists hm
  obtain ⟨i, j, rfl, h7, h8⟩ := twoDigitString_exists hd
  have hs : (String.mk [a, b, c, e] ++ "-" ++ String.mk [f, g] ++ "-" ++ String.mk [i, j])
      = String.mk [a, b, c, e, '-', f, g, '-', i, j] := rfl
  rw [hs, dateShape_mk]
  simp [h1, h2, h3, h4, h5, h6, h7, h8]

/-- The groups of a full-pattern match are two/two/four digit strings. -/
theorem matchFullAt_groups {l : List Char} {d m y : String}
    (h : matchFullAt l = some (d, m, y)) :
    twoDigitString d = true ∧ twoDigitString m = true ∧ fourDigitString y = true := by
  unfold matchFullAt at h
  split at h
  · split at h
    · rename_i hc
      simp only [Option.some.injEq, Prod.mk.injEq] at h
      obtain ⟨rfl, rfl, rfl⟩ := h
      simp only [Bool.and_eq_true] at hc
      refine ⟨?_, ?_, ?_⟩ <;>
        simp only [twoDigitString, fourDigitString, String.toList, Bool.and_eq_true] <;>
          tauto
    · exact absurd h (by simp)
  · exact absurd h (by simp)

/-- The groups of every full-pattern search result are digit strings. -/
theorem searchFullL_groups :
    ∀ (l : List Char) {d m y : String}, searchFullL l = some (d, m, y) →
      twoDigitString d = true ∧ twoDigitString m = true ∧ fourDigitString y = true := by
  intro l
  induction l with
  | nil => intro d m y h; simp [searchFullL] at h
  | cons c rest ih =>
    intro d m y h
    unfold searchFullL at h
    cases hm : matchFullAt (c :: rest) with
    | some g =>
      rw [hm] at h
      simp only [Option.some.injEq] at h
      subst h
      exact matchFullAt_groups hm
    | none =>
      rw [hm] at h
      exact ih h

/-- The groups of a short-pattern match are two-digit strings. -/
theorem matchShortAt_groups {l : List Char} {d m : String}
    (h : matchShortAt l = some (d, m)) :
    twoDigitString d = true ∧ twoDigitString m = true := by
  unfold matchShortAt at h
  split at h
  · split at h
    · rename_i hc
      simp only [Option.some.injEq, Prod.mk.injEq] at h
      obtain ⟨rfl, rfl⟩ := h
      simp only [Bool.and_eq_true] at hc
      constructor <;> simp only [twoDigitString, String.toList, Bool.and_eq_true] <;> tauto
    · exact absurd h (by simp)
  · exact absurd h (by simp)

/-- The groups of every short-pattern search result are digit strings. -/
theorem searchShortL_groups :
    ∀ (l : List Char) {d m : String}, searchShortL l = some (d, m) →
      twoDigitString d = true ∧ twoDigitString m = true := by
  intro l
  induction l with
  | nil => intro d m h; simp [searchShortL] at h
  | cons c rest ih =>
    intro d m h
    unfold searchShortL at h
    cases hm : matchShortAt (c :: rest) with
    | some g =>
      rw [hm] at h
      simp only [Option.some.injEq] at h
      subst h
      exact matchShortAt_groups hm
    | none =>
      rw [hm] at h
      exact ih h

/-- Every year the `(\d{4})` scan finds is a four-digit string. -/
theorem searchYearL_groups :
    ∀ (l : List Char) {y : String}, searchYearL l = some y → fourDigitString y = true := by
  intro l
  induction l with
  | nil => intro y h; simp [searchYearL] at h
  | cons c rest ih =>
    intro y h
    unfold searchYearL at h
    cases hm : matchYearAt (c :: rest) with
    | some g =>
      rw [hm] at h
      simp only [Option.some.injEq] at h
      subst h
      unfold matchYearAt at hm
      split at hm
      · split at hm
        · rename_i hc
          simp only [Option.some.injEq] at hm
          subst hm
          simp only [Bool.and_eq_true] at hc
          simp only [fourDigitString, String.toList, Bool.and_eq_true]
          tauto
        · exact absurd hm (by simp)
      · exact absurd hm (by simp)
    | none =>
      rw [hm] at h
      exact ih h

/-- Whenever `parse_date` succeeds and the current-year string has four
digits, both returned strings have the digit shape `DDDD-DD-DD`. -/
theorem parse_date_shape {s cy vf vt : String} (hcy : fourDigitString cy = true)
    (h : parse_date s cy = (some vf, some vt)) :
    dateShapeDigits vf = true ∧ dateShapeDigits vt = true := by
  unfold parse_date at h
  split at h
  · split at h
    · rename_i hfa hfb
      simp only [Prod.mk.injEq, Option.some.injEq] at h
      obtain ⟨rfl, rfl⟩ := h
      obtain ⟨hd1, hm1, hy1⟩ := searchFullL_groups _ hfa
      obtain ⟨hd2, hm2, hy2⟩ := searchFullL_groups _ hfb
      exact ⟨dateShape_of_groups hy1 hm1 hd1, dateShape_of_groups hy2 hm2 hd2⟩
    · split at h
      · rename_i hsa hsb
        simp only [Prod.mk.injEq, Option.some.injEq] at h
        obtain ⟨rfl, rfl⟩ := h
        have hyr : fourDigitString ((searchYearL s.toList).getD cy) = true := by
          cases hys : searchYearL s.toList with
          | some y => simpa using searchYearL_groups _ hys
          | none => simpa using hcy
        obtain ⟨hd1, hm1⟩ := searchShortL_groups _ hsa
        obtain ⟨hd2, hm2⟩ := searchShortL_groups _ hsb
        exact ⟨dateShape_of_groups hyr hm1 hd1, dateShape_of_groups hyr hm2 hd2⟩
      · simp at h
  · simp at h

/-- Inversion of `extract_brochure_data`: every accepted fragment has no
stale marker, a title element, a thumbnail URL, a date element, a successful
date parse, and the record is assembled exactly from those pieces. -/
theorem extract_inv {br : Node} {sh cy t : String} {r : BrochureRecord}
    (h : extract_brochure_data br sh cy t = some r) :
    br.find "div" (some "grid-item-old") = none ∧
    ∃ te u de vf vt,
      br.find "strong" none = some te ∧
      findThumb br = some u ∧
      dateElem br = some de ∧
      parse_date (pyStripS de.getText) cy = (some vf, some vt) ∧
      r = { title := pyStripS te.getText, thumbnail := resolveThumbnail u,
            shop_name := sh, valid_from := vf, valid_to := vt,
            parsed_time := t } := by
  unfold extract_brochure_data at h
  split at h
  · exact absurd h (by simp)
  · rename_i hold
    refine ⟨Option.not_isSome_iff_eq_none.mp (by simpa using hold), ?_⟩
    split at h
    · exact absurd h (by simp)
    · rename_i te hte
      split at h
      · exact absurd h (by simp)
      · rename_i u hu
        split at h
        · exact absurd h (by simp)
        · rename_i de hde
          split at h
          · rename_i vf vt hp
            simp only [Option.some.injEq] at h
            exact ⟨te, u, de, vf, vt, hte, hu, hde, hp, h.symm⟩
          · exact absurd h (by simp)

/-! ## Claims about the extractor -/

/-- C5 is false on the code: the extractor performs no calendar validation,
so a fragment with date text `99.99.2024 - 88.88.2024` is accepted and the
record's `valid_from`/`valid_to` are not well-formed calendar dates. -/
theorem C5_counterexample :
    extract_brochure_data badDateFragment "Shop" "2026" "now" =
      some { title := "Katalog", thumbnail := "https://x.de/i.jpg",
             shop_name := "Shop", valid_from := "2024-99-99",
             valid_to := "2024-88-88", parsed_time := "now" } ∧
    specWellFormedDate "2024-99-99" = false ∧
    specWellFormedDate "2024-88-88" = false :=
  ⟨by decide, by decide, by decide⟩

/-- C5 amended: for every accepted fragment both date fields have the digit
shape `DDDD-DD-DD` (four-digit year, two-digit month and day fields), but no
calendar validation is performed — month and day may be out of range. -/
theorem C5_amended_digit_shape (br : Node) (sh cy t : String) (r : BrochureRecord)
    (hcy : fourDigitString cy = true)
    (h : extract_brochure_data br sh cy t = some r) :
    dateShapeDigits r.valid_from = true ∧ dateShapeDigits r.valid_to = true := by
  obtain ⟨-, te, u, de, vf, vt, -, -, -, hp, hr⟩ := extract_inv h
  subst hr
  simpa using parse_date_shape hcy hp

/-- Witness for the amended C5 at a well-formed sample fragment. -/
theorem C5_amended_digit_shape_witness :
    dateShapeDigits "2024-03-01" = true ∧ dateShapeDigits "2024-03-15" = true :=
  C5_amended_digit_shape sampleFragment "Lidl" "2026" "t"
    { title := "Angebote der Woche",
      thumbnail := "https://www.prospektmaschine.de/img/b1.jpg",
      shop_name := "Lidl", valid_from := "2024-03-01", valid_to := "2024-03-15",
      parsed_time := "t" }
    (by decide) (by decide)

/-- C6 is false on the code: only the presence of the title element is
checked, not that its text is non-empty, so a whitespace-only `strong` yields
an accepted record whose title is the empty string. -/
theorem C6_counterexample :
    extract_brochure_data blankTitleFragment "Shop" "2026" "now" =
      some { title := "", thumbnail := "https://x.de/i.jpg", shop_name := "Shop",
             valid_from := "2024-03-01", valid_to := "2024-03-15",
             parsed_time := "now" } ∧
    (extract_brochure_data blankTitleFragment "Shop" "2026" "now").map
      BrochureRecord.title = some "" :=
  ⟨by decide, by decide⟩

/-- C6 amended: for every accepted fragment the record's title is the
stripped text of the first `strong` descendant — possibly empty; acceptance
only requires the element to exist. -/
theorem C6_amended_title_from_strong (br : Node) (sh cy t : String)
    (r : BrochureRecord) (h : extract_brochure_data br sh cy t = some r) :
    ∃ te, br.find "strong" none = some te ∧ r.title = pyStripS te.getText := by
  obtain ⟨-, te, u, de, vf, vt, hte, -, -, -, hr⟩ := extract_inv h
  exact ⟨te, hte, by rw [hr]⟩

/-- Witness for the amended C6 at the sample fragment. -/
theorem C6_amended_title_from_strong_witness :
    ∃ te, sampleFragment.find "strong" none = some te ∧
      ("Angebote der Woche" : String) = pyStripS te.getText :=
  C6_amended_title_from_strong sampleFragment "Lidl" "2026" "t"
    { title := "Angebote der Woche",
      thumbnail := "https://www.prospektmaschine.de/img/b1.jpg",
      shop_name := "Lidl", valid_from := "2024-03-01", valid_to := "2024-03-15",
      parsed_time := "t" }
    (by decide)

/-- C7: for every accepted fragment, the stored thumbnail is the found URL
unchanged when it already starts with `http://` or `https://`, and otherwise
it is that URL resolved against the site base URL with `urljoin`. -/
theorem C7_thumbnail_resolution (br : Node) (sh cy t : String) (r : BrochureRecord)
    (h : extract_brochure_data br sh cy t = some r) :
    ∃ u, findThumb br = some u ∧
      ((pyStartsWith u "http://" || pyStartsWith u "https://") = true →
        r.thumbnail = u) ∧
      ((pyStartsWith u "http://" || pyStartsWith u "https://") = false →
        r.thumbnail = urljoinB u) := by
  obtain ⟨-, te, u, de, vf, vt, -, hu, -, -, hr⟩ := extract_inv h
  subst hr
  refine ⟨u, hu, ?_, ?_⟩ <;> intro hc <;> simp [resolveThumbnail, hc]

/-- Witness for C7 at the sample fragment (relative URL resolved against the
base). -/
theorem C7_thumbnail_resolution_witness :
    ∃ u, findThumb sampleFragment = some u ∧
      ((pyStartsWith u "http://" || pyStartsWith u "https://") = true →
        ("https://www.prospektmaschine.de/img/b1.jpg" : String) = u) ∧
      ((pyStartsWith u "http://" || pyStartsWith u "https://") = false →
        ("https://www.prospektmaschine.de/img/b1.jpg" : String) = urljoinB u) :=
  C7_thumbnail_resolution sampleFragment "Lidl" "2026" "t"
    { title := "Angebote der Woche",
      thumbnail := "https://www.prospektmaschine.de/img/b1.jpg",
      shop_name := "Lidl", valid_from := "2024-03-01", valid_to := "2024-03-15",
      parsed_time := "t" }
    (by decide)

/-! ## Claims about the walkers -/

/-- For an entry with an `href`, the shop walker returns exactly its
specification sequence. -/
theorem get_brochures_eq_spec (fetch : String → Option Node) (e : ShopEntry)
    (u : String) (cy t : String) (hu : e.url = some u) :
    get_brochures_for_shop fetch e.url e.name cy t =
      some (specShopRecords fetch e cy t) := by
  unfold get_brochures_for_shop specShopRecords
  rw [hu]
  cases hf : fetch (urljoinB u) <;> simp [hf]

/-- The aggregate loop appends every shop's specification sequence in
catalog order. -/
theorem scrapeGo_concat (fetch : String → Option Node) (cy t : String) :
    ∀ (entries : List ShopEntry) (acc : List BrochureRecord),
      (∀ e ∈ entries, e.url.isSome = true) →
      scrapeGo fetch cy t entries acc =
        some (acc ++ entries.flatMap (fun e => specShopRecords fetch e cy t)) := by
  intro entries
  induction entries with
  | nil => intro acc _; simp [scrapeGo]
  | cons e rest ih =>
    intro acc hall
    obtain ⟨u, hu⟩ := Option.isSome_iff_exists.mp (hall e (by simp))
    simp only [scrapeGo, get_brochures_eq_spec fetch e u cy t hu]
    rw [ih (acc ++ specShopRecords fetch e cy t) (fun x hx => hall x (by simp [hx]))]
    simp [List.append_assoc]

/-- The top-level run aggregates the enumerated shops' specification
sequences in catalog order (helper shared by the order and resilience
claims). -/
theorem scrape_all_concat (fetch : String → Option Node) (cy t : String)
    (entries : List ShopEntry)
    (henum : get_hypermarket_links fetch = entries)
    (hurls : ∀ e ∈ entries, e.url.isSome = true) :
    scrape_all_hypermarkets fetch cy t =
      some (entries.flatMap (fun e => specShopRecords fetch e cy t)) := by
  unfold scrape_all_hypermarkets
  rw [henum]
  simpa using scrapeGo_concat fetch cy t entries [] hurls

/-- C8: when every enumerated catalog entry carries an `href`, the top-level
aggregate is exactly the concatenation, in catalog order, of each shop's
record sequence, and each shop's sequence is its page's accepted fragments in
document order (`specShopRecords`). -/
theorem C8_order_preservation (fetch : String → Option Node) (cy t : String)
    (entries : List ShopEntry)
    (henum : get_hypermarket_links fetch = entries)
    (hurls : ∀ e ∈ entries, e.url.isSome = true) :
    scrape_all_hypermarkets fetch cy t =
      some (entries.flatMap (fun e => specShopRecords fetch e cy t)) :=
  scrape_all_concat fetch cy t entries henum hurls

/-- C9: a failed page fetch for the middle shop of a three-shop catalog
leaves the aggregate equal to the first and third shops' sequences in order,
the failed shop contributing the empty sequence. -/
theorem C9_partial_failure (fetch : String → Option Node) (cy t : String)
    (A B C : ShopEntry) (ua ub uc : String)
    (henum : get_hypermarket_links fetch = [A, B, C])
    (hA : A.url = some ua) (hB : B.url = some ub) (hC : C.url = some uc)
    (hfail : fetch (urljoinB ub) = none) :
    scrape_all_hypermarkets fetch cy t =
      some (specShopRecords fetch A cy t ++ specShopRecords fetch C cy t) ∧
    specShopRecords fetch B cy t = [] := by
  have hBempty : specShopRecords fetch B cy t = [] := by
    simp [specShopRecords, hB, hfail]
  have hurls : ∀ e ∈ [A, B, C], e.url.isSome = true := by
    intro e he
    rcases List.mem_cons.mp he with rfl | he2
    · simp [hA]
    · rcases List.mem_cons.mp he2 with rfl | he3
      · simp [hB]
      · rcases List.mem_cons.mp he3 with rfl | he4
        · simp [hC]
        · simp at he4
  refine ⟨?_, hBempty⟩
  rw [scrape_all_concat fetch cy t [A, B, C] henum hurls]
  simp [hBempty]

/-- Witness for C8 on the demonstration catalog. -/
theorem C8_order_preservation_witness :
    scrape_all_hypermarkets demoFetch "2026" "t" =
      some (([⟨some "/shop-a/", "Shop A"⟩, ⟨some "/shop-b/", "Shop B"⟩,
        ⟨some "/shop-c/", "Shop C"⟩] : List ShopEntry).flatMap
          (fun e => specShopRecords demoFetch e "2026" "t")) :=
  C8_order_preservation demoFetch "2026" "t"
    [⟨some "/shop-a/", "Shop A"⟩, ⟨some "/shop-b/", "Shop B"⟩, ⟨some "/shop-c/", "Shop C"⟩]
    (by decide) (by decide)

/-- Witness for C9 on the demonstration catalog with shop B failing. -/
theorem C9_partial_failure_witness :
    (scrape_all_hypermarkets demoFetchBFails "2026" "t" =
      some (specShopRecords demoFetchBFails ⟨some "/shop-a/", "Shop A"⟩ "2026" "t" ++
            specShopRecords demoFetchBFails ⟨some "/shop-c/", "Shop C"⟩ "2026" "t")) ∧
    specShopRecords demoFetchBFails ⟨some "/shop-b/", "Shop B"⟩ "2026" "t" = [] :=
  C9_partial_failure demoFetchBFails "2026" "t"
    ⟨some "/shop-a/", "Shop A"⟩ ⟨some "/shop-b/", "Shop B"⟩ ⟨some "/shop-c/", "Shop C"⟩
    "/shop-a/" "/shop-b/" "/shop-c/"
    (by decide) (by decide) (by decide) (by decide) rfl
